import Mathlib

/-!
Shallow embedding of the Crawlavator download/sync core
(`src/shared/download_manager.py`, `src/shared/sync_manager.py`,
`src/app.py` batch workers), followed by theorems about the
claims of the specification.

Modelling conventions:
* Python strings are `String`, Python ints are `Int` (sizes), `None`-able
  values are `Option _`.
* Python truthiness of an optional int / string is made explicit
  (`pyTruthyInt`, `pyTruthyStr`).
* The filesystem is a list of existing paths (`os.path.exists p` becomes
  `fs.contains p`).
* The on-disk manifest / access-log files are `FileState _` values:
  absent, unreadable (IOError on read), corrupt (JSON decode error), or
  valid with parsed content.  JSON (de)serialisation of the own manifest of
  the manager round-trips, so a valid file directly holds a `Manifest`.
* Timestamps (`datetime.now().isoformat()`) are uninterpreted strings passed in
  as a `now` argument.
* The size-tolerance comparison `entry.size >= expected_size * 0.98`
  (download_manager.py:134) uses the Python float literal `0.98`; it is
  modelled as the exact rational comparison `100 * size ≥ 98 * expected`.
-/

namespace Crawlavator

/-- Status strings of `DownloadStatus` (download_manager.py:15-22). -/
def statusPending : String := "pending"

/-- Value of `DownloadStatus.IN_PROGRESS`. -/
def statusInProgress : String := "in_progress"

/-- Value of `DownloadStatus.COMPLETE`. -/
def statusComplete : String := "complete"

/-- Value of `DownloadStatus.FAILED`. -/
def statusFailed : String := "failed"

/-- Value of `DownloadStatus.SKIPPED`. -/
def statusSkipped : String := "skipped"

/-- Value of `DownloadStatus.RESTRICTED`. -/
def statusRestricted : String := "restricted"

/-- One manifest record (`DownloadEntry`, download_manager.py:25-47). -/
structure DownloadEntry where
  id : String
  title : String
  url : String
  asset_type : String
  category : String
  status : String := statusPending
  local_path : Option String := none
  size : Option Int := none
  expected_size : Option Int := none
  resume_position : Option Int := none
  checksum : Option String := none
  downloaded_at : Option String := none
  error : Option String := none
deriving DecidableEq, Repr

/-- Python truthiness of an optional int (`None` and `0` are falsy). -/
def pyTruthyInt : Option Int → Bool
  | none => false
  | some n => n != 0

/-- Python truthiness of an optional string (`None` and `""` are falsy). -/
def pyTruthyStr : Option String → Bool
  | none => false
  | some s => s != ""

/-- The in-memory manifest dict
`{created_at, last_sync, downloads}` (download_manager.py:81-85);
`downloads` is an insertion-ordered map from id to entry, modelled as an
association list. -/
structure Manifest where
  created_at : String
  last_sync : Option String
  downloads : List (String × DownloadEntry)
deriving DecidableEq, Repr

/-- Dict lookup `self.manifest["downloads"].get(item_id)`. -/
def getEntry (ds : List (String × DownloadEntry)) (k : String) : Option DownloadEntry :=
  (ds.find? (fun p => p.1 == k)).map (·.2)

/-- Dict assignment `self.manifest["downloads"][item_id] = v`:
replace the value at an existing key in place, else append. -/
def setEntry (ds : List (String × DownloadEntry)) (k : String) (v : DownloadEntry) :
    List (String × DownloadEntry) :=
  match ds with
  | [] => [(k, v)]
  | p :: rest => if p.1 == k then (k, v) :: rest else p :: setEntry rest k v

/-- State of an on-disk JSON file as seen by a loader. -/
inductive FileState (α : Type) where
  | absent
  | unreadable
  | corrupt
  | valid (a : α)
deriving DecidableEq, Repr

/-- The access log `{accessible, restricted, errors}`
(download_manager.py:102-106); each record is the Python dict appended
there, modelled as a key/value list. -/
structure AccessLog where
  accessible : List (List (String × String))
  restricted : List (List (String × String))
  errors : List (List (String × String))
deriving DecidableEq, Repr

/-- Fresh empty manifest (download_manager.py:81-85). -/
def freshManifest (now : String) : Manifest :=
  { created_at := now, last_sync := none, downloads := [] }

/-- Fresh empty access log (download_manager.py:102-106). -/
def freshAccessLog : AccessLog :=
  { accessible := [], restricted := [], errors := [] }

/-- Embeds `DownloadManager._load_manifest` (download_manager.py:72-85): a
missing file, an IOError, or a JSON decode error all fall through to a
fresh manifest; nothing is raised. -/
def load_manifest (f : FileState Manifest) (now : String) : Manifest :=
  match f with
  | .valid m => m
  | _ => freshManifest now

/-- Embeds `DownloadManager._load_access_log` (download_manager.py:93-106). -/
def load_access_log (f : FileState AccessLog) : AccessLog :=
  match f with
  | .valid a => a
  | _ => freshAccessLog

/-- In-memory and on-disk state owned by one `DownloadManager`
(download_manager.py:59-70). -/
structure DownloadManager where
  manifest : Manifest
  access_log : AccessLog
  manifest_file : FileState Manifest
  access_log_file : FileState AccessLog
deriving DecidableEq, Repr

/-- Embeds `DownloadManager.__init__` (download_manager.py:62-70): loads both
files, tolerating every failure mode. -/
def DownloadManager.init (mf : FileState Manifest) (alf : FileState AccessLog)
    (now : String) : DownloadManager :=
  { manifest := load_manifest mf now
    access_log := load_access_log alf
    manifest_file := mf
    access_log_file := alf }

/-- Embeds `DownloadManager._save_manifest` (download_manager.py:87-91): stamps
`last_sync` and rewrites the manifest file in place. -/
def save_manifest (dm : DownloadManager) (now : String) : DownloadManager :=
  let m := { dm.manifest with last_sync := some now }
  { dm with manifest := m, manifest_file := .valid m }

/-- How far the in-place rewrite of `manifest.json`
(download_manager.py:90-91, open with write mode then `json.dump`) got
before a crash. -/
inductive WriteCrash where
  | completes
  | midWrite
deriving DecidableEq, Repr

/-- File-level effect of `_save_manifest` with a possible crash: the
code opens `manifest.json` in truncating write mode, which erases the previous
content immediately, so a crash before the dump finishes leaves a
truncated/corrupt file — the previous version is gone either way. -/
def save_manifest_file (m : Manifest) (now : String) (c : WriteCrash) :
    FileState Manifest :=
  match c with
  | .completes => .valid { m with last_sync := some now }
  | .midWrite => .corrupt

/-- Embeds `DownloadManager._save_access_log` (download_manager.py:108-111). -/
def save_access_log (dm : DownloadManager) : DownloadManager :=
  { dm with access_log_file := .valid dm.access_log }

/-- Embeds `DownloadManager.get_download_status` (download_manager.py:113-117). -/
def get_download_status (m : Manifest) (item_id : String) : Option DownloadEntry :=
  getEntry m.downloads item_id

/-- Embeds `DownloadManager.should_download` (download_manager.py:119-144),
with the filesystem passed explicitly.  `fs` is the set of paths for
which `os.path.exists` is true. -/
def should_download (m : Manifest) (fs : List String) (item_id : String)
    (expected_size : Option Int) : Bool :=
  match get_download_status m item_id with
  | none => true
  | some entry =>
    if entry.status == statusComplete then
      if (match entry.local_path with
          | some p => p != "" && fs.contains p
          | none => false) then
        if pyTruthyInt expected_size && pyTruthyInt entry.size then
          if 100 * entry.size.getD 0 ≥ 98 * expected_size.getD 0 then false
          else true
        else if pyTruthyInt entry.size && entry.size.getD 0 > 0 then false
        else true
      else true
    else if entry.status == statusFailed || entry.status == statusRestricted then false
    else true

/-- Embeds `DownloadManager.start_download` (download_manager.py:153-166). -/
def start_download (dm : DownloadManager) (item_id title url asset_type category
    local_path : String) (now : String) : DownloadManager :=
  let entry : DownloadEntry :=
    { id := item_id, title := title, url := url, asset_type := asset_type
      category := category, status := statusInProgress, local_path := some local_path }
  let dm := { dm with manifest := { dm.manifest with
    downloads := setEntry dm.manifest.downloads item_id entry } }
  save_manifest dm now

/-- Embeds `DownloadManager.update_progress` (download_manager.py:168-176):
mutates the entry but deliberately does not save. -/
def update_progress (dm : DownloadManager) (item_id : String)
    (bytes_downloaded : Int) (expected_size : Option Int) : DownloadManager :=
  match getEntry dm.manifest.downloads item_id with
  | none => dm
  | some e =>
    let e := { e with size := some bytes_downloaded
                      resume_position := some bytes_downloaded
                      expected_size :=
                        if pyTruthyInt expected_size then expected_size
                        else e.expected_size
                      status := "partial" }
    { dm with manifest := { dm.manifest with
        downloads := setEntry dm.manifest.downloads item_id e } }

/-- Embeds `DownloadManager.complete_download` (download_manager.py:178-204). -/
def complete_download (dm : DownloadManager) (item_id local_path : String)
    (size : Int) (checksum : Option String) (now : String) : DownloadManager :=
  let dm :=
    match getEntry dm.manifest.downloads item_id with
    | some e =>
      let e := { e with status := statusComplete, local_path := some local_path
                        size := some size, checksum := checksum
                        downloaded_at := some now, error := none }
      { dm with manifest := { dm.manifest with
          downloads := setEntry dm.manifest.downloads item_id e } }
    | none =>
      let e : DownloadEntry :=
        { id := item_id, title := item_id, url := "", asset_type := "unknown"
          category := "unknown", status := statusComplete
          local_path := some local_path, size := some size, checksum := checksum
          downloaded_at := some now }
      { dm with manifest := { dm.manifest with
          downloads := setEntry dm.manifest.downloads item_id e } }
  save_manifest dm now

/-- Embeds `DownloadManager.fail_download` (download_manager.py:206-220): only
an existing entry is marked failed (and the manifest saved); the errors
access log is appended to and saved in every case. -/
def fail_download (dm : DownloadManager) (item_id error : String)
    (now : String) : DownloadManager :=
  let dm :=
    match getEntry dm.manifest.downloads item_id with
    | some e =>
      let e := { e with status := statusFailed, error := some error }
      save_manifest
        { dm with manifest := { dm.manifest with
            downloads := setEntry dm.manifest.downloads item_id e } } now
    | none => dm
  let dm := { dm with access_log := { dm.access_log with
    errors := dm.access_log.errors ++
      [[("id", item_id), ("error", error), ("timestamp", now)]] } }
  save_access_log dm

/-- Embeds `DownloadManager.mark_restricted` (download_manager.py:222-250). -/
def mark_restricted (dm : DownloadManager) (item_id title url reason : String)
    (now : String) : DownloadManager :=
  let dm :=
    match getEntry dm.manifest.downloads item_id with
    | some e =>
      let e := { e with status := statusRestricted, error := some reason }
      { dm with manifest := { dm.manifest with
          downloads := setEntry dm.manifest.downloads item_id e } }
    | none =>
      let e : DownloadEntry :=
        { id := item_id, title := title, url := url, asset_type := "unknown"
          category := "unknown", status := statusRestricted, error := some reason }
      { dm with manifest := { dm.manifest with
          downloads := setEntry dm.manifest.downloads item_id e } }
  let dm := save_manifest dm now
  let dm := { dm with access_log := { dm.access_log with
    restricted := dm.access_log.restricted ++
      [[("id", item_id), ("title", title), ("url", url), ("reason", reason),
        ("timestamp", now)]] } }
  save_access_log dm

/-- Embeds `DownloadManager.mark_accessible` (download_manager.py:252-258):
appends in memory only; neither file is written. -/
def mark_accessible (dm : DownloadManager) (url title : String)
    (now : String) : DownloadManager :=
  { dm with access_log := { dm.access_log with
    accessible := dm.access_log.accessible ++
      [[("url", url), ("title", title), ("timestamp", now)]] } }

/-- Embeds `DownloadManager.skip_download` (download_manager.py:260-264):
mutates the entry in memory only; no save call. -/
def skip_download (dm : DownloadManager) (item_id reason : String) : DownloadManager :=
  match getEntry dm.manifest.downloads item_id with
  | none => dm
  | some e =>
    let e := { e with status := statusSkipped, error := some reason }
    { dm with manifest := { dm.manifest with
        downloads := setEntry dm.manifest.downloads item_id e } }

/-- Universal content item (`ContentItem`, sites/__init__.py:11-26). -/
structure ContentItem where
  id : String
  title : String
  url : String
  asset_type : String
  category : String
  subcategory : String := ""
  date : String := ""
  description : String := ""
  download_url : Option String := none
  thumbnail : Option String := none
deriving DecidableEq, Repr

/-- Minimal JSON values, enough to describe what
`DownloadManager._save_manifest` writes and what
`SyncManager.find_local_content` reads back. -/
inductive JVal where
  | null
  | str (s : String)
  | num (n : Int)
  | obj (fields : List (String × JVal))

/-- Python dict get of key `k` on a parsed JSON object; `none` on a non-object or a
missing key. -/
def jGet (j : JVal) (k : String) : Option JVal :=
  match j with
  | .obj fields => (fields.find? (fun p => p.1 == k)).map (·.2)
  | _ => none

/-- JSON image of an optional string field. -/
def jOptStr : Option String → JVal
  | none => .null
  | some s => .str s

/-- JSON image of an optional int field. -/
def jOptInt : Option Int → JVal
  | none => .null
  | some n => .num n

/-- JSON object written for one `DownloadEntry`
(`asdict`, download_manager.py:42-43). -/
def entryToJson (e : DownloadEntry) : JVal :=
  .obj [("id", .str e.id), ("title", .str e.title), ("url", .str e.url),
        ("asset_type", .str e.asset_type), ("category", .str e.category),
        ("status", .str e.status), ("local_path", jOptStr e.local_path),
        ("size", jOptInt e.size), ("expected_size", jOptInt e.expected_size),
        ("resume_position", jOptInt e.resume_position),
        ("checksum", jOptStr e.checksum),
        ("downloaded_at", jOptStr e.downloaded_at),
        ("error", jOptStr e.error)]

/-- The JSON document `json.dump`-ed by `_save_manifest`
(download_manager.py:81-91): top-level keys are exactly `created_at`,
`last_sync` and `downloads`. -/
def manifestToJson (m : Manifest) : JVal :=
  .obj [("created_at", .str m.created_at),
        ("last_sync", jOptStr m.last_sync),
        ("downloads", .obj (m.downloads.map (fun p => (p.1, entryToJson p.2))))]

/-- Python str.startswith, phrased over the character lists so that it
evaluates by `decide`. -/
def pyStartsWith (s pre : String) : Bool :=
  pre.data.isPrefixOf s.data

/-- Manifest-based signal of `SyncManager.find_local_content`
(sync_manager.py:41-52): read the manifest JSON, take the keys of its
top-level `completed` object, keep those starting with `source_id`.  A
missing `completed` key yields an empty dict; any other shape raises
inside the `try` and is swallowed, contributing nothing. -/
def manifestCompletedIds (j : JVal) (source_id : String) : List String :=
  match jGet j "completed" with
  | some (.obj fields) =>
      (fields.map (·.1)).filter (fun item_id => pyStartsWith item_id source_id)
  | _ => []

/-- Embeds `SyncManager.compare_with_remote` (sync_manager.py:102-113): the
loop appends exactly the indexed items whose id is not in `local_ids`. -/
def compare_with_remote (indexed_items : List ContentItem)
    (local_ids : List String) : List ContentItem :=
  match indexed_items with
  | [] => []
  | item :: rest =>
    if local_ids.contains item.id then compare_with_remote rest local_ids
    else item :: compare_with_remote rest local_ids

/-- Success branch of the per-item batch download worker
(app.py:539-540): `dm.complete_download(item_id, output_dir, 0)` —
the size argument is the literal `0`. -/
def download_worker_success (dm : DownloadManager) (item_id output_dir : String)
    (now : String) : DownloadManager :=
  complete_download dm item_id output_dir 0 none now

/-!
Model of the `sync_all_worker` batch state machine (app.py:798-1193).

Each remote item attempt is abstracted by whether `site.download_item`
raised and by how long the attempt took; the wall clock is a `Nat`
advanced by those durations.  The per-source download loop
(app.py:979-1025, and per feed for the private-RSS branch at
app.py:917-965) checks, before each item, whether more than 60 seconds
elapsed since the channel start with zero successful downloads
(abandon: timeout), attempts the item, and on an exception increments
the error count and abandons when more than 3 errors accumulated with
zero successes.  A successful attempt resets the channel start.
-/

/-- One scripted `site.download_item` attempt: whether it raises, and
its wall-clock duration. -/
structure ItemAttempt where
  raises : Bool
  dur : Nat
deriving DecidableEq, Repr

/-- How a per-source (or per-feed) item loop ended. -/
inductive LoopExit where
  | finished
  | timeout
  | multipleErrors
deriving DecidableEq, Repr

/-- Mutable state while processing one source: the wall clock, the
channel start time (reset on success), and the per-source
`downloaded_count` / `download_errors` counters. -/
structure LoopState where
  clock : Nat
  channelStart : Nat
  downloaded : Nat
  errors : Nat
deriving DecidableEq, Repr

/-- The item loop (app.py:979-1025 / 921-965): stall check before each
item, then the attempt; `break` on timeout or error burst. -/
def runItems : LoopState → List ItemAttempt → LoopState × LoopExit
  | st, [] => (st, .finished)
  | st, a :: rest =>
    if st.clock - st.channelStart > 60 && st.downloaded == 0 then
      (st, .timeout)
    else
      let clock' := st.clock + a.dur
      if a.raises then
        let st' := { st with clock := clock', errors := st.errors + 1 }
        if st'.errors > 3 && st'.downloaded == 0 then (st', .multipleErrors)
        else runItems st' rest
      else
        runItems { st with clock := clock', channelStart := clock'
                           downloaded := st.downloaded + 1 } rest

/-- The private-RSS per-feed loop (app.py:917-965): feeds are processed
in turn with the *shared* per-source counters; an abandoned feed appends
the source to `failed_sites` and breaks only the loop of that feed, so each
abandoned feed contributes one more append.  Returns the final state and
the number of `failed_sites.append` calls. -/
def runFeeds : LoopState → List (List ItemAttempt) → LoopState × Nat
  | st, [] => (st, 0)
  | st, feed :: rest =>
    let (st', e) := runItems st feed
    let (st'', n) := runFeeds st' rest
    (st'', (if e == LoopExit.finished then 0 else 1) + n)

/-- One source in a `sync_all` batch: its id and its new items, grouped
by feed (the item list of a non-private source is `feeds.flatten`). -/
structure SourceScript where
  sid : String
  feeds : List (List ItemAttempt)
deriving DecidableEq, Repr

/-- Fresh per-source loop state: channel start at the current clock,
zero successes and zero errors (app.py:846, 902-903). -/
def initLoopState (clock : Nat) : LoopState :=
  { clock := clock, channelStart := clock, downloaded := 0, errors := 0 }

/-- Entries appended to `failed_sites` while processing one source
(dispatch on whether the site id is the string private_rss, app.py:907):
each entry carries
the source id and the items the retry pass will use
(the new_items_full list of the cached sync result). -/
def processSource (clock : Nat) (s : SourceScript) :
    Nat × List (String × List ItemAttempt) :=
  if s.sid == "private_rss" then
    let (st, n) := runFeeds (initLoopState clock) s.feeds
    (st.clock, List.replicate n (s.sid, s.feeds.flatten))
  else
    let (st, e) := runItems (initLoopState clock) s.feeds.flatten
    (st.clock, if e == LoopExit.finished then [] else [(s.sid, s.feeds.flatten)])

/-- The main pass of `sync_all_worker` (app.py:843-1070): each source is
processed once, in order; the retry queue is the concatenation of the
per-source `failed_sites` appends. -/
def mainPass (clock : Nat) : List SourceScript →
    Nat × List (String × List ItemAttempt)
  | [] => (clock, [])
  | s :: rest =>
    let (c', q) := processSource clock s
    let (c'', q') := mainPass c' rest
    (c'', q ++ q')

/-- Outcome of retrying one failed source (app.py:1137-1164): reported
as a success when at least one item downloaded, otherwise reported as
failed — never queued again. -/
inductive RetryOutcome where
  | succeeded (n : Nat)
  | reportedFailed
deriving DecidableEq, Repr

/-- Retry of one failed source (app.py:1104-1164): fresh counters and a
fresh channel start, the same item loop, then the report. -/
def retrySource (clock : Nat) (items : List ItemAttempt) : Nat × RetryOutcome :=
  let (st, _) := runItems (initLoopState clock) items
  (st.clock, if st.downloaded > 0 then .succeeded st.downloaded
             else .reportedFailed)

/-- The single retry pass (app.py:1079-1171): one iteration over
`failed_sites`, guarded by the emptiness test on new_items_to_download; nothing is ever
appended back to the queue. -/
def retryPass (clock : Nat) : List (String × List ItemAttempt) →
    Nat × List (String × RetryOutcome)
  | [] => (clock, [])
  | (sid, items) :: rest =>
    if items.isEmpty then retryPass clock rest
    else
      let (c', o) := retrySource clock items
      let (c'', os) := retryPass c' rest
      (c'', (sid, o) :: os)

/-- A whole `sync_all` batch run: the main pass, then exactly one retry
pass over the queue it produced (app.py:843-1171). -/
def syncAllRun (clock : Nat) (sources : List SourceScript) :
    List (String × List ItemAttempt) × List (String × RetryOutcome) :=
  let (c', q) := mainPass clock sources
  (q, (retryPass c' q).2)

/-!
Concrete fixtures used by counterexamples and witnesses.
-/

/-- A complete entry whose file is on disk but whose recorded size is
unknown (`None`). -/
def entrySizeNone : DownloadEntry :=
  { id := "x", title := "t", url := "u", asset_type := "audio", category := "c",
    status := statusComplete, local_path := some "/p" }

/-- Manifest holding only `entrySizeNone`. -/
def manifestSizeNone : Manifest :=
  { created_at := "t0", last_sync := none, downloads := [("x", entrySizeNone)] }

/-- Same entry with recorded size 985 (98.5 percent of 1000). -/
def manifestSize985 : Manifest :=
  { created_at := "t0", last_sync := none,
    downloads := [("x", { entrySizeNone with size := some 985 })] }

/-- Same entry with recorded size 900 (90 percent of 1000). -/
def manifestSize900 : Manifest :=
  { created_at := "t0", last_sync := none,
    downloads := [("x", { entrySizeNone with size := some 900 })] }

/-- A restricted entry, and a manifest holding it. -/
def entryRestrictedB2 : DownloadEntry :=
  { id := "b2", title := "Title", url := "http://x", asset_type := "unknown",
    category := "unknown", status := statusRestricted, error := some "403" }

/-- Manifest holding only `entryRestrictedB2`. -/
def manifestRestrictedB2 : Manifest :=
  { created_at := "t0", last_sync := none, downloads := [("b2", entryRestrictedB2)] }

/-- Manifest as the Download Manager persists it, with one completed
entry whose id starts with the source id `lex`. -/
def manifestLexComplete : Manifest :=
  { created_at := "t0", last_sync := some "t1",
    downloads := [("lex_001_a", { entrySizeNone with id := "lex_001_a" })] }

/-- A previously persisted manifest version holding an entry, used to
probe crash atomicity. -/
def manifestOldA1 : Manifest :=
  { created_at := "t0", last_sync := some "t1",
    downloads := [("a1", { entrySizeNone with id := "a1" })] }

/-- A manager freshly constructed over an empty base directory. -/
def dmEmpty : DownloadManager :=
  DownloadManager.init FileState.absent FileState.absent "t0"

/-- The manager after `start_download` of item `a1`. -/
def dmStartedA1 : DownloadManager :=
  start_download dmEmpty "a1" "T" "u" "audio" "cat" "/p" "t1"

/-- The manager after additionally calling `skip_download` on `a1`. -/
def dmSkippedA1 : DownloadManager :=
  skip_download dmStartedA1 "a1" "Already exists"

/-- Scripted private-RSS feeds: the first feed raises once after 61
seconds and then stalls, the second feed is then stalled from the
start. -/
def rssFeedsTwice : List (List ItemAttempt) :=
  [[{ raises := true, dur := 61 }, { raises := true, dur := 0 }],
   [{ raises := true, dur := 0 }]]

/-- The private-RSS source built over `rssFeedsTwice`. -/
def rssSourceTwice : SourceScript :=
  { sid := "private_rss", feeds := rssFeedsTwice }

/-- A non-private source that stalls: one failing 61-second item, then
another item attempted after the stall window. -/
def stalledSource : SourceScript :=
  { sid := "lexfridman",
    feeds := [[{ raises := true, dur := 61 }, { raises := true, dur := 0 }]] }

/-!
Helper lemmas shared by the claim theorems.
-/

/-- Writing a key and reading it back yields the written entry. -/
theorem getEntry_setEntry_self (ds : List (String × DownloadEntry)) (k : String)
    (v : DownloadEntry) : getEntry (setEntry ds k v) k = some v := by
  induction ds with
  | nil => simp [setEntry, getEntry]
  | cons p rest ih =>
    by_cases h : p.1 == k
    · simp [setEntry, h, getEntry]
    · simpa [setEntry, h, getEntry] using ih

/-- Saving the manifest does not change the downloads map. -/
theorem save_manifest_downloads (dm : DownloadManager) (now : String) :
    (save_manifest dm now).manifest.downloads = dm.manifest.downloads := rfl

/-- A terminal entry (failed or restricted) makes `should_download`
return false, whatever the filesystem and expected size are. -/
theorem should_download_terminal (m : Manifest) (fs : List String)
    (item_id : String) (expected : Option Int) (e : DownloadEntry)
    (hget : get_download_status m item_id = some e)
    (hst : e.status = statusFailed ∨ e.status = statusRestricted) :
    should_download m fs item_id expected = false := by
  unfold should_download
  rw [hget]
  dsimp only
  rcases hst with h | h <;> rw [h] <;>
    simp [statusFailed, statusComplete, statusRestricted]

/-- A complete entry whose recorded size is missing or zero makes
`should_download` (queried without an expected size) return true. -/
theorem should_download_zero_size (m : Manifest) (fs : List String)
    (item_id : String) (e : DownloadEntry)
    (hget : get_download_status m item_id = some e)
    (hst : e.status = statusComplete)
    (hsize : e.size = none ∨ e.size = some 0) :
    should_download m fs item_id none = true := by
  unfold should_download
  rw [hget]
  dsimp only
  have hty : pyTruthyInt e.size = false := by
    rcases hsize with h | h <;> rw [h] <;> rfl
  rw [hst, hty]
  simp

/-- After `complete_download` the entry exists, is complete, and records
exactly the size passed in. -/
theorem complete_download_entry (dm : DownloadManager)
    (item_id local_path : String) (size : Int) (checksum : Option String)
    (now : String) :
    ∃ e, get_download_status
        (complete_download dm item_id local_path size checksum now).manifest
        item_id = some e ∧
      e.status = statusComplete ∧ e.size = some size := by
  unfold complete_download get_download_status
  cases hg : getEntry dm.manifest.downloads item_id with
  | some e0 =>
    refine ⟨{ e0 with status := statusComplete, local_path := some local_path, size := some size, checksum := checksum, downloaded_at := some now, error := none }, ?_, rfl, rfl⟩
    simp only [hg, save_manifest]
    exact getEntry_setEntry_self ..
  | none =>
    refine ⟨{ id := item_id, title := item_id, url := "", asset_type := "unknown",
              category := "unknown", status := statusComplete,
              local_path := some local_path, size := some size,
              checksum := checksum, downloaded_at := some now }, ?_, rfl, rfl⟩
    simp only [hg, save_manifest]
    exact getEntry_setEntry_self ..

/-- After `mark_restricted` the entry exists and is restricted. -/
theorem mark_restricted_entry (dm : DownloadManager)
    (item_id title url reason now : String) :
    ∃ e, get_download_status
        (mark_restricted dm item_id title url reason now).manifest
        item_id = some e ∧ e.status = statusRestricted := by
  unfold mark_restricted get_download_status
  cases hg : getEntry dm.manifest.downloads item_id with
  | some e0 =>
    refine ⟨{ e0 with status := statusRestricted, error := some reason }, ?_, rfl⟩
    simp only [hg, save_manifest, save_access_log]
    exact getEntry_setEntry_self ..
  | none =>
    refine ⟨{ id := item_id, title := title, url := url, asset_type := "unknown",
              category := "unknown", status := statusRestricted,
              error := some reason }, ?_, rfl⟩
    simp only [hg, save_manifest, save_access_log]
    exact getEntry_setEntry_self ..

/-- `mark_restricted` persists: afterwards the manifest file holds
exactly the in-memory manifest. -/
theorem mark_restricted_persists (dm : DownloadManager)
    (item_id title url reason now : String) :
    (mark_restricted dm item_id title url reason now).manifest_file =
      FileState.valid (mark_restricted dm item_id title url reason now).manifest := by
  unfold mark_restricted
  cases getEntry dm.manifest.downloads item_id <;> rfl

/-!
Claim theorems.
-/

/-- C3: once an entry has status FAILED or RESTRICTED,
`should_download` returns false for that id (for every filesystem and
expected size, hence on every subsequent call) until the entry is
externally reset; in particular after `mark_restricted` the query
returns false, and still returns false after a fresh manager reloads
the manifest that `mark_restricted` persisted to disk. -/
theorem C3_terminal_status_never_retried :
    (∀ (m : Manifest) (fs : List String) (item_id : String) (expected : Option Int)
       (e : DownloadEntry), get_download_status m item_id = some e →
       (e.status = statusFailed ∨ e.status = statusRestricted) →
       should_download m fs item_id expected = false) ∧
    (∀ (dm : DownloadManager) (item_id title url reason now now' : String)
       (fs : List String) (expected : Option Int),
       should_download (mark_restricted dm item_id title url reason now).manifest
         fs item_id expected = false ∧
       should_download
         (load_manifest
           (mark_restricted dm item_id title url reason now).manifest_file now')
         fs item_id expected = false) := by
  constructor
  · exact should_download_terminal
  · intro dm item_id title url reason now now' fs expected
    obtain ⟨e, hget, hst⟩ := mark_restricted_entry dm item_id title url reason now
    refine ⟨should_download_terminal _ fs item_id expected e hget (Or.inr hst), ?_⟩
    rw [mark_restricted_persists]
    exact should_download_terminal _ fs item_id expected e hget (Or.inr hst)

/-- Witness for C3: the restricted entry `b2` is never retried. -/
theorem C3_terminal_status_never_retried_witness :
    should_download manifestRestrictedB2 ["/p"] "b2" none = false :=
  C3_terminal_status_never_retried.1 manifestRestrictedB2 ["/p"] "b2" none
    entryRestrictedB2 rfl (Or.inr rfl)

/-- C8: when the manifest file is missing, unreadable or corrupt,
constructing a `DownloadManager` still succeeds (the embedding is a
total function) and `_load_manifest` yields the fresh empty manifest
with the creation timestamp, no last sync and no downloads. -/
theorem C8_load_manifest_never_fatal (mf : FileState Manifest)
    (alf : FileState AccessLog) (now : String)
    (h : mf = FileState.absent ∨ mf = FileState.unreadable ∨ mf = FileState.corrupt) :
    (DownloadManager.init mf alf now).manifest =
      { created_at := now, last_sync := none, downloads := [] } := by
  rcases h with h | h | h <;> subst h <;> rfl

/-- Witness for C8 at a corrupt manifest file. -/
theorem C8_load_manifest_never_fatal_witness :
    (DownloadManager.init FileState.corrupt FileState.absent "t0").manifest =
      { created_at := "t0", last_sync := none, downloads := [] } :=
  C8_load_manifest_never_fatal FileState.corrupt FileState.absent "t0"
    (Or.inr (Or.inr rfl))

/-- C9: a COMPLETE entry whose recorded size is 0 or unknown makes
`should_download` (with no expected size) return true even when the
local file exists; and the batch download worker records every success
with size 0 (app.py:540), so an item it completed is still reported as
needing download afterwards. -/
theorem C9_zero_size_completions_redownload :
    (∀ (m : Manifest) (fs : List String) (item_id : String) (e : DownloadEntry),
       get_download_status m item_id = some e → e.status = statusComplete →
       (e.size = none ∨ e.size = some 0) →
       should_download m fs item_id none = true) ∧
    (∀ (dm : DownloadManager) (item_id output_dir now : String) (fs : List String),
       should_download (download_worker_success dm item_id output_dir now).manifest
         fs item_id none = true) := by
  constructor
  · exact should_download_zero_size
  · intro dm item_id output_dir now fs
    obtain ⟨e, hget, hst, hsize⟩ := complete_download_entry dm item_id output_dir 0 none now
    exact should_download_zero_size _ fs item_id e hget hst (Or.inr hsize)

/-- Witness for C9: a complete entry with unknown size and its file on
disk is still reported as needing download. -/
theorem C9_zero_size_completions_redownload_witness :
    should_download manifestSizeNone ["/p"] "x" none = true :=
  C9_zero_size_completions_redownload.1 manifestSizeNone ["/p"] "x"
    entrySizeNone rfl rfl (Or.inl rfl)

/-- C10: `fail_download` on an id with no manifest entry leaves the
in-memory manifest and the manifest file untouched (no FAILED entry is
created, nothing persisted to the manifest), appends one record to the
errors access log (which is saved), and `should_download` still
returns true for that id. -/
theorem C10_fail_download_without_entry (dm : DownloadManager)
    (item_id error now : String) (fs : List String) (expected : Option Int)
    (h : getEntry dm.manifest.downloads item_id = none) :
    (fail_download dm item_id error now).manifest = dm.manifest ∧
    (fail_download dm item_id error now).manifest_file = dm.manifest_file ∧
    (fail_download dm item_id error now).access_log.accessible =
      dm.access_log.accessible ∧
    (fail_download dm item_id error now).access_log.restricted =
      dm.access_log.restricted ∧
    (fail_download dm item_id error now).access_log.errors =
      dm.access_log.errors ++ [[("id", item_id), ("error", error), ("timestamp", now)]] ∧
    (fail_download dm item_id error now).access_log_file =
      FileState.valid (fail_download dm item_id error now).access_log ∧
    should_download (fail_download dm item_id error now).manifest fs item_id expected
      = true := by
  have hunfold : fail_download dm item_id error now =
      save_access_log { dm with access_log := { dm.access_log with
        errors := dm.access_log.errors ++
          [[("id", item_id), ("error", error), ("timestamp", now)]] } } := by
    unfold fail_download
    rw [h]
  rw [hunfold]
  refine ⟨rfl, rfl, rfl, rfl, rfl, rfl, ?_⟩
  unfold should_download get_download_status save_access_log
  rw [show ({ dm with access_log := { dm.access_log with
        errors := dm.access_log.errors ++
          [[("id", item_id), ("error", error), ("timestamp", now)]] } } :
      DownloadManager).manifest = dm.manifest from rfl, h]

/-- Witness for C10: failing an unknown id on a fresh manager. -/
theorem C10_fail_download_without_entry_witness :
    (fail_download dmEmpty "zz" "boom" "t1").manifest = dmEmpty.manifest ∧
    (fail_download dmEmpty "zz" "boom" "t1").manifest_file = dmEmpty.manifest_file ∧
    (fail_download dmEmpty "zz" "boom" "t1").access_log.accessible =
      dmEmpty.access_log.accessible ∧
    (fail_download dmEmpty "zz" "boom" "t1").access_log.restricted =
      dmEmpty.access_log.restricted ∧
    (fail_download dmEmpty "zz" "boom" "t1").access_log.errors =
      dmEmpty.access_log.errors ++ [[("id", "zz"), ("error", "boom"), ("timestamp", "t1")]] ∧
    (fail_download dmEmpty "zz" "boom" "t1").access_log_file =
      FileState.valid (fail_download dmEmpty "zz" "boom" "t1").access_log ∧
    should_download (fail_download dmEmpty "zz" "boom" "t1").manifest [] "zz" none
      = true :=
  C10_fail_download_without_entry dmEmpty "zz" "boom" "t1" [] none rfl

/-- Counterexample to C1 as stated: a COMPLETE entry whose local file
exists on disk and for which no expected size is given — the claim says
`should_download` returns false whenever the file exists and no
expected size is known, but with the recorded size unknown (`None`) the
code returns true. -/
theorem C1_counterexample :
    get_download_status manifestSizeNone "x" = some entrySizeNone ∧
    entrySizeNone.status = statusComplete ∧
    entrySizeNone.local_path = some "/p" ∧
    (["/p"] : List String).contains "/p" = true ∧
    entrySizeNone.size = none ∧
    should_download manifestSizeNone ["/p"] "x" none = true :=
  ⟨rfl, rfl, rfl, rfl, rfl, rfl⟩

/-- C1 amended: for a COMPLETE entry, `should_download` returns false
exactly when the recorded local path is a nonempty path that exists on
disk and either (a nonzero expected size and a nonzero recorded size
are both known and the recorded size is at least 98 percent of the
expected size) or (no nonzero expected size is known and the recorded
size is known and positive); in particular with recorded size
0.985 times the expected size it returns false, with 0.90 times it
returns true, and with the local file missing it returns true. -/
theorem C1_amended :
    (∀ (m : Manifest) (fs : List String) (item_id : String) (expected : Option Int)
       (e : DownloadEntry), get_download_status m item_id = some e →
       e.status = statusComplete →
       (should_download m fs item_id expected = false ↔
         ((∃ p, e.local_path = some p ∧ p ≠ "" ∧ fs.contains p = true) ∧
          ((pyTruthyInt expected = true ∧ pyTruthyInt e.size = true ∧
              100 * e.size.getD 0 ≥ 98 * expected.getD 0) ∨
           (pyTruthyInt expected = false ∧ pyTruthyInt e.size = true ∧
              e.size.getD 0 > 0))))) ∧
    should_download manifestSize985 ["/p"] "x" (some 1000) = false ∧
    should_download manifestSize900 ["/p"] "x" (some 1000) = true ∧
    should_download manifestSize985 [] "x" (some 1000) = true := by
  refine ⟨?_, rfl, rfl, rfl⟩
  intro m fs item_id expected e hget hst
  unfold should_download
  rw [hget]
  dsimp only
  rw [hst]
  simp only [beq_self_eq_true, if_true]
  cases hlp : e.local_path with
  | none => simp
  | some p =>
    split_ifs with h1 h2 h3 h4
    · rw [Bool.and_eq_true, bne_iff_ne] at h1
      rw [Bool.and_eq_true] at h2
      exact iff_of_true rfl ⟨⟨p, rfl, h1.1, h1.2⟩, Or.inl ⟨h2.1, h2.2, h3⟩⟩
    · rw [Bool.and_eq_true] at h2
      refine iff_of_false (by simp) ?_
      rintro ⟨-, hor⟩
      rcases hor with ⟨hE, hS, htol⟩ | ⟨hE, hS, hpos⟩
      · exact h3 htol
      · rw [h2.1] at hE
        exact absurd hE (by simp)
    · rw [Bool.and_eq_true, bne_iff_ne] at h1
      rw [Bool.and_eq_true, decide_eq_true_iff] at h4
      refine iff_of_true rfl ⟨⟨p, rfl, h1.1, h1.2⟩, Or.inr ⟨?_, h4.1, h4.2⟩⟩
      cases hE : pyTruthyInt expected with
      | false => rfl
      | true => exact absurd (by simp [hE, h4.1]) h2
    · refine iff_of_false (by simp) ?_
      rintro ⟨-, hor⟩
      rcases hor with ⟨hE, hS, htol⟩ | ⟨hE, hS, hpos⟩
      · exact h2 (by simp [hE, hS])
      · exact h4 (by simp [hS, hpos])
    · refine iff_of_false (by simp) ?_
      rintro ⟨⟨p', hp', hne, hc⟩, -⟩
      injection hp' with hpp
      subst hpp
      exact h1 (by rw [Bool.and_eq_true, bne_iff_ne]; exact ⟨hne, hc⟩)

/-- Witness for C1 amended: recorded size 985 against expected 1000 is
inside the tolerance band, so the item is not re-downloaded. -/
theorem C1_amended_witness :
    should_download manifestSize985 ["/p"] "x" (some 1000) = false :=
  (C1_amended.1 manifestSize985 ["/p"] "x" (some 1000)
      { entrySizeNone with size := some 985 } rfl rfl).mpr
    ⟨⟨"/p", rfl, by decide, rfl⟩, Or.inl ⟨by decide, by decide, by decide⟩⟩

/-- C2 (code bug): the manifest-based signal of `find_local_content`
reads the top-level key `completed`, but the JSON that
`DownloadManager._save_manifest` writes has only the keys `created_at`,
`last_sync` and `downloads` — so for every manifest the Download
Manager persists, and every source id, the manifest signal contributes
no ids at all; in particular the completed entry `lex_001_a`, whose id
starts with the source id `lex`, is not found. -/
theorem C2_manifest_signal_dead :
    (∀ (m : Manifest) (source_id : String),
       manifestCompletedIds (manifestToJson m) source_id = []) ∧
    manifestCompletedIds (manifestToJson manifestLexComplete) "lex" = [] ∧
    pyStartsWith "lex_001_a" "lex" = true ∧
    (getEntry manifestLexComplete.downloads "lex_001_a").map (·.status) =
      some statusComplete := by
  refine ⟨fun m source_id => rfl, rfl, by decide, rfl⟩

/-- The loop of `compare_with_remote` is an order-preserving filter. -/
theorem compare_with_remote_eq_filter (indexed : List ContentItem)
    (local_ids : List String) :
    compare_with_remote indexed local_ids =
      indexed.filter (fun item => !local_ids.contains item.id) := by
  induction indexed with
  | nil => rfl
  | cons item rest ih =>
    simp only [compare_with_remote, List.filter_cons]
    by_cases h : local_ids.contains item.id
    · simp [h, ih]
    · simp [h, ih]

/-- C4: `compare_with_remote` returns exactly the indexed items whose
id is not in the local-id set, in their original order: it equals the
order-preserving filter, is a sublist of the input, and membership and
multiplicity are exactly those of the non-local items. -/
theorem C4_compare_with_remote_exact :
    ∀ (indexed : List ContentItem) (local_ids : List String),
      compare_with_remote indexed local_ids =
        indexed.filter (fun item => !local_ids.contains item.id) ∧
      List.Sublist (compare_with_remote indexed local_ids) indexed ∧
      (∀ item : ContentItem, item ∈ compare_with_remote indexed local_ids ↔
        (item ∈ indexed ∧ local_ids.contains item.id = false)) ∧
      (∀ item : ContentItem, (compare_with_remote indexed local_ids).count item =
        if local_ids.contains item.id then 0 else indexed.count item) := by
  intro indexed local_ids
  refine ⟨compare_with_remote_eq_filter indexed local_ids, ?_, ?_, ?_⟩
  · rw [compare_with_remote_eq_filter]
    exact List.filter_sublist indexed
  · intro item
    rw [compare_with_remote_eq_filter, List.mem_filter]
    constructor
    · rintro ⟨hm, hp⟩
      rw [Bool.not_eq_true'] at hp
      exact ⟨hm, hp⟩
    · rintro ⟨hm, hp⟩
      refine ⟨hm, ?_⟩
      rw [hp]
      rfl
  · intro item
    rw [compare_with_remote_eq_filter]
    by_cases h : local_ids.contains item.id
    · rw [if_pos h]
      refine List.count_eq_zero.mpr ?_
      intro hmem
      rw [List.mem_filter, h] at hmem
      exact absurd hmem.2 (by simp)
    · rw [Bool.not_eq_true] at h
      rw [if_neg (by intro hc; rw [h] at hc; cases hc)]
      exact List.count_filter (by rw [h]; rfl)

/-- Counterexample to C6 as stated: the previous manifest version on
disk held entry `a1`; the code rewrites `manifest.json` in place, so a
crash between opening the file and finishing the dump leaves a corrupt
file — not the previous version — and the subsequent load yields a
fresh empty manifest in which `a1` is gone. -/
theorem C6_counterexample :
    save_manifest_file manifestSizeNone "t2" WriteCrash.midWrite ≠
      FileState.valid manifestOldA1 ∧
    load_manifest (save_manifest_file manifestSizeNone "t2" WriteCrash.midWrite) "t3" =
      freshManifest "t3" ∧
    getEntry manifestOldA1.downloads "a1" ≠ none ∧
    getEntry (load_manifest (save_manifest_file manifestSizeNone "t2"
        WriteCrash.midWrite) "t3").downloads "a1" = none := by
  refine ⟨by decide, rfl, by decide, rfl⟩

/-- C6 amended: `_save_manifest` rewrites `manifest.json` in place with
no temp file or rename, so a crash after the file is opened for writing
but before the dump completes leaves a corrupt/truncated file rather
than any previous version; a later load then falls back to the fresh
empty manifest (no failure), while a crash-free save leaves the new
manifest, stamped with `last_sync`, loadable. -/
theorem C6_amended :
    ∀ (m mPrev : Manifest) (now now' : String),
      save_manifest_file m now WriteCrash.midWrite = FileState.corrupt ∧
      load_manifest (save_manifest_file m now WriteCrash.midWrite) now' =
        freshManifest now' ∧
      load_manifest (save_manifest_file m now WriteCrash.completes) now' =
        { m with last_sync := some now } ∧
      save_manifest_file m now WriteCrash.midWrite ≠ FileState.valid mPrev := by
  intro m mPrev now now'
  exact ⟨rfl, rfl, rfl, by simp [save_manifest_file]⟩

/-- Counterexample to C7 as stated: after `start_download` (which
persists status in_progress) a `skip_download` call sets the in-memory
status to skipped but writes nothing — the manifest file is unchanged
and still records in_progress, so `skip_download` does not write the
manifest file before returning. -/
theorem C7_counterexample :
    (getEntry dmSkippedA1.manifest.downloads "a1").map (·.status) =
      some statusSkipped ∧
    dmSkippedA1.manifest_file = dmStartedA1.manifest_file ∧
    (match dmSkippedA1.manifest_file with
     | FileState.valid m => (getEntry m.downloads "a1").map (·.status)
     | _ => none) = some statusInProgress := by
  refine ⟨rfl, rfl, rfl⟩

/-- C7 amended: `start_download`, `complete_download` and
`mark_restricted` persist the manifest before returning, and
`fail_download` persists it whenever the id has an entry; but
`skip_download` (status SKIPPED) and `mark_accessible` mutate in-memory
state only and write neither the manifest file nor the access-log file
until some later persisting operation or an explicit save. -/
theorem C7_amended :
    (∀ (dm : DownloadManager) (item_id reason : String),
       (skip_download dm item_id reason).manifest_file = dm.manifest_file ∧
       (skip_download dm item_id reason).access_log_file = dm.access_log_file) ∧
    (∀ (dm : DownloadManager) (url title now : String),
       (mark_accessible dm url title now).manifest_file = dm.manifest_file ∧
       (mark_accessible dm url title now).access_log_file = dm.access_log_file) ∧
    (∀ (dm : DownloadManager) (item_id title url asset_type category local_path
         now : String),
       (start_download dm item_id title url asset_type category local_path
           now).manifest_file =
         FileState.valid (start_download dm item_id title url asset_type category
           local_path now).manifest) ∧
    (∀ (dm : DownloadManager) (item_id local_path : String) (size : Int)
       (checksum : Option String) (now : String),
       (complete_download dm item_id local_path size checksum now).manifest_file =
         FileState.valid (complete_download dm item_id local_path size checksum
           now).manifest) ∧
    (∀ (dm : DownloadManager) (item_id title url reason now : String),
       (mark_restricted dm item_id title url reason now).manifest_file =
         FileState.valid (mark_restricted dm item_id title url reason now).manifest) ∧
    (∀ (dm : DownloadManager) (item_id error now : String),
       getEntry dm.manifest.downloads item_id ≠ none →
       (fail_download dm item_id error now).manifest_file =
         FileState.valid (fail_download dm item_id error now).manifest) := by
  refine ⟨?_, ?_, ?_, ?_, ?_, ?_⟩
  · intro dm item_id reason
    unfold skip_download
    cases getEntry dm.manifest.downloads item_id <;> exact ⟨rfl, rfl⟩
  · intro dm url title now
    exact ⟨rfl, rfl⟩
  · intro dm item_id title url asset_type category local_path now
    rfl
  · intro dm item_id local_path size checksum now
    unfold complete_download
    cases getEntry dm.manifest.downloads item_id <;> rfl
  · intro dm item_id title url reason now
    exact mark_restricted_persists dm item_id title url reason now
  · intro dm item_id error now h
    unfold fail_download
    cases hg : getEntry dm.manifest.downloads item_id with
    | none => exact absurd hg h
    | some e => rfl

/-- Witness for C7 amended: failing the existing entry `a1` persists
the manifest. -/
theorem C7_amended_witness :
    (fail_download dmStartedA1 "a1" "boom" "t2").manifest_file =
      FileState.valid (fail_download dmStartedA1 "a1" "boom" "t2").manifest :=
  C7_amended.2.2.2.2.2 dmStartedA1 "a1" "boom" "t2" (by decide)

/-- Unfolding of one `mainPass` step. -/
theorem mainPass_cons (clock : Nat) (s : SourceScript) (rest : List SourceScript) :
    mainPass clock (s :: rest) =
      ((mainPass (processSource clock s).1 rest).1,
       (processSource clock s).2 ++ (mainPass (processSource clock s).1 rest).2) := by
  rcases hp : processSource clock s with ⟨c1, q⟩
  rcases hm : mainPass c1 rest with ⟨c2, q2⟩
  simp [mainPass, hp, hm]

/-- Every retry-queue entry produced while processing one source is
tagged with that source id. -/
theorem processSource_fst (clock : Nat) (s : SourceScript) :
    ∀ e ∈ (processSource clock s).2, e.1 = s.sid := by
  intro e he
  unfold processSource at he
  by_cases h : (s.sid == "private_rss") = true
  · rw [if_pos h] at he
    rcases hr : runFeeds (initLoopState clock) s.feeds with ⟨st, n⟩
    rw [hr] at he
    dsimp only at he
    rw [List.eq_of_mem_replicate he]
  · rw [if_neg h] at he
    rcases hr : runItems (initLoopState clock) s.feeds.flatten with ⟨st, ex⟩
    rw [hr] at he
    dsimp only at he
    by_cases hfin : (ex == LoopExit.finished) = true
    · rw [if_pos hfin] at he
      cases he
    · rw [if_neg hfin] at he
      rw [List.mem_singleton] at he
      rw [he]

/-- An item loop that did not finish was given a nonempty item list. -/
theorem runItems_exit_ne_nil (st : LoopState) (items : List ItemAttempt)
    (h : (runItems st items).2 ≠ LoopExit.finished) : items ≠ [] := by
  intro hn
  subst hn
  exact h rfl

/-- If some feed loop was abandoned, the flattened feed items are
nonempty. -/
theorem runFeeds_pos_flatten (st : LoopState) (feeds : List (List ItemAttempt))
    (h : (runFeeds st feeds).2 ≠ 0) : feeds.flatten ≠ [] := by
  induction feeds generalizing st with
  | nil => exact absurd rfl h
  | cons feed rest ih =>
    rcases hri : runItems st feed with ⟨st1, ex⟩
    rcases hrf : runFeeds st1 rest with ⟨st2, n⟩
    rw [show runFeeds st (feed :: rest) =
        (st2, (if ex == LoopExit.finished then 0 else 1) + n) from by
      simp [runFeeds, hri, hrf]] at h
    dsimp only at h
    intro hnil
    rw [List.flatten_cons, List.append_eq_nil] at hnil
    by_cases hfin : (ex == LoopExit.finished) = true
    · rw [if_pos hfin, Nat.zero_add] at h
      exact ih st1 (by rw [hrf]; exact h) hnil.2
    · exact runItems_exit_ne_nil st feed
        (by rw [hri]; simpa [beq_iff_eq] using hfin) hnil.1

/-- Every retry-queue entry produced while processing one source
carries a nonempty item list. -/
theorem processSource_snd_ne_nil (clock : Nat) (s : SourceScript) :
    ∀ e ∈ (processSource clock s).2, e.2 ≠ [] := by
  intro e he
  unfold processSource at he
  by_cases h : (s.sid == "private_rss") = true
  · rw [if_pos h] at he
    rcases hr : runFeeds (initLoopState clock) s.feeds with ⟨st, n⟩
    rw [hr] at he
    dsimp only at he
    have hn : n ≠ 0 := by
      intro h0
      rw [h0] at he
      cases he
    rw [List.eq_of_mem_replicate he]
    exact runFeeds_pos_flatten _ s.feeds (by rw [hr]; exact hn)
  · rw [if_neg h] at he
    rcases hr : runItems (initLoopState clock) s.feeds.flatten with ⟨st, ex⟩
    rw [hr] at he
    dsimp only at he
    by_cases hfin : (ex == LoopExit.finished) = true
    · rw [if_pos hfin] at he
      cases he
    · rw [if_neg hfin] at he
      rw [List.mem_singleton] at he
      subst he
      exact runItems_exit_ne_nil _ _ (by rw [hr]; simpa [beq_iff_eq] using hfin)

/-- Every entry of the retry queue names one of the batch sources and
carries a nonempty item list. -/
theorem mainPass_entries (clock : Nat) (sources : List SourceScript) :
    ∀ e ∈ (mainPass clock sources).2,
      e.1 ∈ sources.map SourceScript.sid ∧ e.2 ≠ [] := by
  induction sources generalizing clock with
  | nil => intro e he; cases he
  | cons s rest ih =>
    intro e he
    rw [mainPass_cons] at he
    dsimp only at he
    rcases List.mem_append.mp he with h | h
    · refine ⟨?_, processSource_snd_ne_nil clock s e h⟩
      rw [processSource_fst clock s e h]
      exact List.mem_cons_self _ _
    · obtain ⟨h1, h2⟩ := ih _ e h
      exact ⟨List.mem_cons_of_mem _ h1, h2⟩

/-- The retry pass visits each queued entry with a nonempty item list
exactly once, in order. -/
theorem retryPass_map_fst (clock : Nat)
    (queue : List (String × List ItemAttempt))
    (h : ∀ e ∈ queue, e.2 ≠ []) :
    (retryPass clock queue).2.map Prod.fst = queue.map Prod.fst := by
  induction queue generalizing clock with
  | nil => rfl
  | cons e rest ih =>
    obtain ⟨sid, items⟩ := e
    have hne : items ≠ [] := h (sid, items) (List.mem_cons_self _ _)
    have hie : items.isEmpty = false := by
      cases items with
      | nil => exact absurd rfl hne
      | cons a l => rfl
    rcases hr : retrySource clock items with ⟨c1, o⟩
    rcases hrp : retryPass c1 rest with ⟨c2, os⟩
    rw [show retryPass clock ((sid, items) :: rest) = (c2, (sid, o) :: os) from by
      simp [retryPass, hie, hr, hrp]]
    dsimp only [List.map_cons]
    rw [show os = (retryPass c1 rest).2 from by rw [hrp]]
    rw [ih c1 (fun e2 he2 => h e2 (List.mem_cons_of_mem _ he2))]

/-- A non-private source contributes at most one retry-queue entry. -/
theorem processSource_length_le_one (clock : Nat) (s : SourceScript)
    (h : s.sid ≠ "private_rss") :
    (processSource clock s).2.length ≤ 1 := by
  unfold processSource
  rw [if_neg (by simpa [beq_iff_eq] using h)]
  rcases hr : runItems (initLoopState clock) s.feeds.flatten with ⟨st, ex⟩
  dsimp only
  split <;> simp

/-- With pairwise-distinct source ids, a non-private source id occurs
at most once among the retry-queue tags. -/
theorem mainPass_count_le_one (sid : String) (hsid : sid ≠ "private_rss") :
    ∀ (sources : List SourceScript),
      (sources.map SourceScript.sid).Pairwise (· ≠ ·) →
      ∀ (clock : Nat), ((mainPass clock sources).2.map Prod.fst).count sid ≤ 1 := by
  intro sources
  induction sources with
  | nil => intro _ clock; simp [mainPass]
  | cons s rest ih =>
    intro hdist clock
    rw [List.map_cons, List.pairwise_cons] at hdist
    rw [mainPass_cons]
    dsimp only
    rw [List.map_append, List.count_append]
    by_cases hs : s.sid = sid
    · have hzero : ((mainPass (processSource clock s).1 rest).2.map Prod.fst).count
          sid = 0 := by
        refine List.count_eq_zero.mpr ?_
        intro hmem
        rw [List.mem_map] at hmem
        obtain ⟨e, he, hfe⟩ := hmem
        have h1 := (mainPass_entries _ rest e he).1
        rw [hfe] at h1
        exact hdist.1 sid h1 hs
      rw [hzero, Nat.add_zero]
      calc ((processSource clock s).2.map Prod.fst).count sid
          ≤ ((processSource clock s).2.map Prod.fst).length :=
            List.count_le_length _ _
        _ = (processSource clock s).2.length := List.length_map _ _
        _ ≤ 1 := processSource_length_le_one clock s (hs ▸ hsid)
    · have hzero : (((processSource clock s).2.map Prod.fst).count sid) = 0 := by
        refine List.count_eq_zero.mpr ?_
        intro hmem
        rw [List.mem_map] at hmem
        obtain ⟨e, he, hfe⟩ := hmem
        exact hs (by rw [← hfe, processSource_fst clock s e he])
      rw [hzero, Nat.zero_add]
      exact ih hdist.2 _

/-- A non-private source abandoned by the stall detector or error-burst
breaker is queued exactly once. -/
theorem processSource_abandoned_once (clock : Nat) (s : SourceScript)
    (h : s.sid ≠ "private_rss")
    (hab : (runItems (initLoopState clock) s.feeds.flatten).2 ≠ LoopExit.finished) :
    (processSource clock s).2.map Prod.fst = [s.sid] := by
  unfold processSource
  rw [if_neg (by simpa [beq_iff_eq] using h)]
  rcases hr : runItems (initLoopState clock) s.feeds.flatten with ⟨st, ex⟩
  dsimp only
  rw [if_neg (by rw [hr] at hab; simpa [beq_iff_eq] using hab)]
  rfl

/-- A retry reports failure exactly when it produced zero successful
downloads. -/
theorem retrySource_reportedFailed_iff (clock : Nat) (items : List ItemAttempt) :
    (retrySource clock items).2 = RetryOutcome.reportedFailed ↔
      (runItems (initLoopState clock) items).1.downloaded = 0 := by
  unfold retrySource
  rcases hr : runItems (initLoopState clock) items with ⟨st, ex⟩
  dsimp only
  by_cases hd : st.downloaded > 0
  · rw [if_pos hd]
    refine iff_of_false (by simp) ?_
    omega
  · rw [if_neg hd]
    exact iff_of_true rfl (by omega)

/-- Counterexample to C5 as stated: the private-RSS source below is
abandoned by the stall detector (its first feed exits with a timeout),
yet it appears twice in the retry queue — the per-feed loop re-checks
the stall condition for the next feed and appends the source again. -/
theorem C5_counterexample :
    (runItems (initLoopState 0)
        [{ raises := true, dur := 61 }, { raises := true, dur := 0 }]).2 =
      LoopExit.timeout ∧
    (mainPass 0 [rssSourceTwice]).2.map Prod.fst =
      ["private_rss", "private_rss"] := by
  exact ⟨by decide, by decide⟩

/-- C5 amended: a non-private-RSS source abandoned by the stall
detector or error-burst breaker appears exactly once in the retry
queue (at most once across a batch with pairwise-distinct source ids,
and exactly once from its own processing); the private-RSS source can
be queued once per abandoned feed.  Exactly one retry pass runs per
batch: it visits each queued entry exactly once, in order, and a retry
that produces zero successful downloads is reported as failed, never
queued again. -/
theorem C5_amended :
    (∀ (clock : Nat) (sources : List SourceScript),
       (sources.map SourceScript.sid).Pairwise (· ≠ ·) →
       ∀ sid, sid ≠ "private_rss" →
       ((mainPass clock sources).2.map Prod.fst).count sid ≤ 1) ∧
    (∀ (clock : Nat) (s : SourceScript), s.sid ≠ "private_rss" →
       (runItems (initLoopState clock) s.feeds.flatten).2 ≠ LoopExit.finished →
       (processSource clock s).2.map Prod.fst = [s.sid]) ∧
    (∀ (clock clock' : Nat) (sources : List SourceScript),
       (retryPass clock' (mainPass clock sources).2).2.map Prod.fst =
         (mainPass clock sources).2.map Prod.fst) ∧
    (∀ (clock : Nat) (items : List ItemAttempt),
       (retrySource clock items).2 = RetryOutcome.reportedFailed ↔
         (runItems (initLoopState clock) items).1.downloaded = 0) := by
  refine ⟨?_, ?_, ?_, retrySource_reportedFailed_iff⟩
  · intro clock sources hdist sid hsid
    exact mainPass_count_le_one sid hsid sources hdist clock
  · intro clock s h hab
    exact processSource_abandoned_once clock s h hab
  · intro clock clock' sources
    exact retryPass_map_fst clock' _
      (fun e he => (mainPass_entries clock sources e he).2)

/-- Witness for C5 amended: a stalled non-private source is queued
exactly once. -/
theorem C5_amended_witness :
    (processSource 0 stalledSource).2.map Prod.fst = ["lexfridman"] :=
  C5_amended.2.1 0 stalledSource (by decide) (by decide)

end Crawlavator
